import Mathlib

/-!
Shallow embedding of the MTc Player App core (src/App.tsx, src/views/PlayerView.tsx).

Numbers that are JS floats are modelled as rationals where only ordered-field
arithmetic occurs, and as reals in the touch-gesture geometry (Math.hypot /
Math.atan2).  JS `findIndex` returning -1 is modelled with integers; JS array
access `list[i]` that can yield `undefined` (and then crash on member access)
is modelled with `Option`.  The `played` field is pure instrumentation: it
records the ids handed to `playTrack`, so that "track t was started" is
observable in the final state.
-/

namespace MTcPlayer

inductive MediaType where
  | MUSIC
  | VIDEO
  | PODCAST
  | AUDIOBOOK
deriving DecidableEq, Repr

inductive RepeatMode where
  | OFF
  | ALL
  | ONE
deriving DecidableEq, Repr

structure LyricLine where
  time : ℚ
  text : String
deriving DecidableEq, Repr

structure MediaItem where
  id : String
  title : String
  artist : String
  album : Option String := none
  coverUrl : String
  mediaUrl : String
  type : MediaType
  duration : ℚ
  moods : Option (List String) := none
  lyrics : Option (List LyricLine) := none
deriving DecidableEq, Repr

/-- SleepTimer state from App.tsx: `{ active, endTime, fadeDuration }`;
`endTime` is a millisecond timestamp or `null`. -/
structure SleepTimer where
  active : Bool
  endTime : Option ℤ
  fadeDuration : ℤ
deriving DecidableEq, Repr

/-- The five fixed equalizer bands (60, 250, 1000, 4000, 16000 Hz). -/
inductive Band where
  | b60
  | b250
  | b1000
  | b4000
  | b16000
deriving DecidableEq, Repr

/-- Gains object keyed by the five band frequencies. -/
structure EqGains where
  g60 : ℚ
  g250 : ℚ
  g1000 : ℚ
  g4000 : ℚ
  g16000 : ℚ
deriving DecidableEq, Repr

structure EqSettings where
  preset : String
  gains : EqGains
deriving DecidableEq, Repr

/-- The App-level React state relevant to playback, plus the position/paused state of the audio element (`audioRef.current`), plus the `played`
instrumentation trace. -/
structure AppState where
  currentTrack : Option MediaItem
  isPlaying : Bool
  currentTime : ℚ
  duration : ℚ
  shuffleOn : Bool
  repeatMode : RepeatMode
  isOnline : Bool
  favorites : Finset String
  eqSettings : EqSettings
  sleepTimer : SleepTimer
  audioTime : ℚ
  audioPaused : Bool
  played : List String
deriving DecidableEq

/-- JS `list.findIndex(t => t.id === id)`: first matching index, `-1` if none. -/
def findIndexById (list : List MediaItem) (id : String) : ℤ :=
  match list.findIdx? (fun t => t.id = id) with
  | some i => (i : ℤ)
  | none => -1

/-- JS `list[i]` for an integer index: `undefined` (here `none`) when out of
range or negative. -/
def jsIndex (list : List MediaItem) (i : ℤ) : Option MediaItem :=
  if 0 ≤ i then list.get? i.toNat else none

/-- Synchronous state commits of `playTrack` (App.tsx) on the path where the
async `play()` succeeds.  A video track pauses the audio element and owns
timing itself; an audio track is refused while offline unless local;
otherwise the element is given the new src (resetting its position) and
played.  The track id is appended to the `played` trace at the call. -/
def playTrack (s : AppState) (track : MediaItem) : AppState :=
  let s0 := { s with played := s.played ++ [track.id], currentTrack := some track }
  if track.type = MediaType.VIDEO then
    { s0 with audioPaused := true, isPlaying := true, currentTime := 0,
              duration := track.duration }
  else if s.isOnline = false ∧ (track.id.startsWith ("local-")) = false
            ∧ (track.mediaUrl.startsWith ("blob:")) = false then
    { s0 with isPlaying := false }
  else
    { s0 with audioPaused := false, audioTime := 0, isPlaying := true }

/-- Function `handleNext(autoTrigger)` from App.tsx.  `list` is
`filteredMedia.length > 0 ? filteredMedia : allMedia`; `r` stands for the
value of `Math.floor(Math.random() * list.length)` in the shuffle branch.
`none` models a thrown error (accessing a member of `undefined`). -/
def handleNext (list : List MediaItem) (r : ℕ) (autoTrigger : Bool)
    (s : AppState) : Option AppState :=
  match s.currentTrack with
  | none => some s
  | some cur =>
    if autoTrigger = true ∧ s.repeatMode = RepeatMode.ONE then
      if cur.type = MediaType.VIDEO then
        some (playTrack s cur)
      else
        some { s with audioTime := 0, audioPaused := false, isPlaying := true }
    else
      let currentIdx := findIndexById list cur.id
      if s.shuffleOn = true then
        let nextIdx : ℤ := (r : ℤ)
        let nextIdx :=
          if 1 < list.length ∧ nextIdx = currentIdx then
            (nextIdx + 1) % (list.length : ℤ)
          else nextIdx
        (jsIndex list nextIdx).map (playTrack s)
      else if currentIdx = -1 then
        (jsIndex list 0).map (playTrack s)
      else
        let nextIdx := currentIdx + 1
        if (list.length : ℤ) ≤ nextIdx then
          if s.repeatMode = RepeatMode.ALL then
            (jsIndex list 0).map (playTrack s)
          else
            let s1 := { s with isPlaying := false }
            if autoTrigger = false then
              (jsIndex list 0).map (playTrack s1)
            else
              some s1
        else
          (jsIndex list nextIdx).map (playTrack s)

/-- Function `handlePrev` from App.tsx: with more than 3 seconds elapsed, reset the
audio element position to 0 (non-video) or re-play the current track
(video); otherwise move to `(currentIdx - 1 + list.length) % list.length`. -/
def handlePrev (list : List MediaItem) (s : AppState) : Option AppState :=
  match s.currentTrack with
  | none => some s
  | some cur =>
    let currentIdx := findIndexById list cur.id
    if 3 < s.currentTime then
      if cur.type ≠ MediaType.VIDEO then
        some { s with audioTime := 0 }
      else
        some (playTrack s cur)
    else
      let prevIdx := (currentIdx - 1 + (list.length : ℤ)) % (list.length : ℤ)
      (jsIndex list prevIdx).map (playTrack s)

/-- Function `handleSeek(time)` from App.tsx: sets the local elapsed-time state to
`time` as given, and (when the current track is not a video) also the audio
element position.  `currentTrack?.type !== VIDEO` is true when
`currentTrack` is null. -/
def handleSeek (time : ℚ) (s : AppState) : AppState :=
  let s1 := { s with currentTime := time }
  match s.currentTrack with
  | some cur =>
    if cur.type ≠ MediaType.VIDEO then { s1 with audioTime := time } else s1
  | none => { s1 with audioTime := time }

/-- Function `toggleFavorite(id)` from App.tsx: delete the id from the favorites set
if present, insert it otherwise. -/
def toggleFavorite (id : String) (s : AppState) : AppState :=
  { s with favorites :=
      if id ∈ s.favorites then s.favorites.erase id else insert id s.favorites }

/-- JS falsiness of the `endTime` field (`!sleepTimer.endTime`): null or 0. -/
def endTimeFalsy (e : Option ℤ) : Bool :=
  match e with
  | none => true
  | some v => v = 0

/-- One tick of the sleep-timer interval (App.tsx sleep timer effect): the
effect is armed only when `active` and `endTime` is truthy; a tick that
observes `now >= endTime` pauses playback, pauses the audio element, clears
the flag and the deadline, and reports that the one-time notification was
emitted (the returned Bool). -/
def sleepCheckTick (now : ℤ) (s : AppState) : AppState × Bool :=
  if s.sleepTimer.active = false ∨ endTimeFalsy s.sleepTimer.endTime = true then
    (s, false)
  else
    match s.sleepTimer.endTime with
    | some d =>
      if d ≤ now then
        ({ s with isPlaying := false, audioPaused := true,
                  sleepTimer := { s.sleepTimer with active := false, endTime := none } },
         true)
      else (s, false)
    | none => (s, false)

/-- Function `setTimer(minutes)` from App.tsx: `null` disarms the timer; a number arms
it with deadline `now + minutes * 60 * 1000`. -/
def setTimer (now : ℤ) (minutes : Option ℤ) (s : AppState) : AppState :=
  match minutes with
  | none => { s with sleepTimer := { active := false, endTime := none, fadeDuration := 60000 } }
  | some m =>
    { s with sleepTimer :=
        { active := true, endTime := some (now + m * 60 * 1000), fadeDuration := 60000 } }

/-- Update one band of a gains object (the computed-key spread
`\x7b ...gains, [freq]: val \x7d` in PlayerView). -/
def setGain (g : EqGains) (b : Band) (v : ℚ) : EqGains :=
  match b with
  | Band.b60 => { g with g60 := v }
  | Band.b250 => { g with g250 := v }
  | Band.b1000 => { g with g1000 := v }
  | Band.b4000 => { g with g4000 := v }
  | Band.b16000 => { g with g16000 := v }

/-- Function `handleEqChange(freq, val)` from PlayerView.tsx: keep the other bands,
overwrite one band with `val` as given, and set the preset label to
Custom. -/
def handleEqChange (freq : Band) (val : ℚ) (eq : EqSettings) : EqSettings :=
  { preset := "Custom", gains := setGain eq.gains freq val }

/-- Function `applyPreset(name)` from PlayerView.tsx: gains start flat and are
replaced wholesale for the three named presets; the previous settings are
not consulted. -/
def applyPreset (name : String) (_eq : EqSettings) : EqSettings :=
  let gains : EqGains := { g60 := 0, g250 := 0, g1000 := 0, g4000 := 0, g16000 := 0 }
  let gains := if name = "Bass Boost" then
    { g60 := 8, g250 := 5, g1000 := 0, g4000 := 0, g16000 := 2 } else gains
  let gains := if name = "Vocal" then
    { g60 := -2, g250 := 2, g1000 := 5, g4000 := 3, g16000 := 1 } else gains
  let gains := if name = "Treble" then
    { g60 := -2, g250 := 0, g1000 := 2, g4000 := 6, g16000 := 8 } else gains
  { preset := name, gains := gains }

/-- All five band gains lie in the documented range [-12, 12]. -/
def gainsInRange (g : EqGains) : Prop :=
  (-12 ≤ g.g60 ∧ g.g60 ≤ 12) ∧ (-12 ≤ g.g250 ∧ g.g250 ≤ 12) ∧
  (-12 ≤ g.g1000 ∧ g.g1000 ≤ 12) ∧ (-12 ≤ g.g4000 ∧ g.g4000 ≤ 12) ∧
  (-12 ≤ g.g16000 ∧ g.g16000 ≤ 12)

instance (g : EqGains) : Decidable (gainsInRange g) := by
  unfold gainsInRange
  infer_instance

inductive GestureType where
  | SWIPE
  | PINCH
  | CIRCLE
deriving DecidableEq, Repr

inductive GestureAction where
  | SEEK
  | VOLUME
  | ZOOM
  | NONE
deriving DecidableEq, Repr

/-- Mapping from gesture topology to the action it controls
(the `gestureSettings` object). -/
structure GestureSettings where
  swipe : GestureAction
  pinch : GestureAction
  circle : GestureAction
deriving DecidableEq, Repr

/-- One touch point, with viewport coordinates as in `Touch.clientX/Y`. -/
structure Touch where
  clientX : ℝ
  clientY : ℝ

/-- Bounding rectangle of the player surface. -/
structure Rect where
  left : ℝ
  top : ℝ
  width : ℝ
  height : ℝ

/-- The JS call `Math.hypot(t2.clientX - t1.clientX, t2.clientY - t1.clientY)`. -/
noncomputable def getDistance (t1 t2 : Touch) : ℝ :=
  Real.sqrt ((t2.clientX - t1.clientX) ^ 2 + (t2.clientY - t1.clientY) ^ 2)

/-- The JS call `Math.atan2(y, x)`, the argument of the complex number x + iy. -/
noncomputable def atan2 (y x : ℝ) : ℝ :=
  Complex.arg (Complex.mk x y)

/-- Angle of a touch point relative to a centre point (`getAngle`). -/
noncomputable def getAngle (t : Touch) (cx cy : ℝ) : ℝ :=
  atan2 (t.clientY - cy) (t.clientX - cx)

/-- The `touchRef.current` record captured at gesture start. -/
structure TouchState where
  startX : ℝ
  startY : ℝ
  startDist : ℝ
  startAngle : ℝ
  initialVol : ℝ
  initialTime : ℝ
  active : Bool

/-- Function `onTouchStart` from PlayerView.tsx: with gesture settings configured,
record the first point, the inter-point distance when a second point is
present (0 otherwise), the initial angle around the surface centre, and the
volume/time baselines.  `none` models the early return (ref unchanged). -/
noncomputable def onTouchStart (g : Option GestureSettings) (t1 : Touch)
    (t2 : Option Touch) (rect : Rect) (volume currentTime : ℝ) :
    Option TouchState :=
  match g with
  | none => none
  | some _ =>
    some { startX := t1.clientX
           startY := t1.clientY
           startDist := match t2 with
             | some u => getDistance t1 u
             | none => 0
           startAngle := getAngle t1 (rect.left + rect.width / 2) (rect.top + rect.height / 2)
           initialVol := volume
           initialTime := currentTime
           active := true }

/-- Classification part of `onTouchMove` (PlayerView.tsx lines 196-215): the
`(action, delta)` pair computed from the touch points before the dead-zone
check and action application. -/
noncomputable def moveActionDelta (g : GestureSettings) (tr : TouchState)
    (t1 : Touch) (t2 : Option Touch) (rect : Rect) : GestureAction × ℝ :=
  match t2 with
  | some u =>
    if 0 < tr.startDist then
      (g.pinch, getDistance t1 u - tr.startDist)
    else
      (GestureAction.NONE, 0)
  | none =>
    let dx := t1.clientX - tr.startX
    let angleDelta :=
      getAngle t1 (rect.left + rect.width / 2) (rect.top + rect.height / 2) - tr.startAngle
    if g.circle ≠ GestureAction.NONE ∧ 1 / 10 < |angleDelta| then
      (g.circle, angleDelta * 50)
    else if g.swipe ≠ GestureAction.NONE ∧ 10 < |dx| then
      (g.swipe, dx)
    else
      (GestureAction.NONE, 0)

/-- Guard of `onTouchMove`: without a recorded touch state, configured
settings and an active gesture, nothing is classified. -/
noncomputable def onTouchMove (g : Option GestureSettings)
    (tr : Option TouchState) (t1 : Touch) (t2 : Option Touch) (rect : Rect) :
    Option (GestureAction × ℝ) :=
  match tr, g with
  | some ts, some gs =>
    if ts.active = true then some (moveActionDelta gs ts t1 t2 rect) else none
  | _, _ => none

/-! Concrete fixtures used by counterexamples and witnesses. -/

def trackA : MediaItem :=
  { id := "a", title := "Alpha", artist := "X", coverUrl := "", mediaUrl := "",
    type := MediaType.MUSIC, duration := 180 }

def trackB : MediaItem :=
  { id := "b", title := "Beta", artist := "Y", coverUrl := "", mediaUrl := "",
    type := MediaType.MUSIC, duration := 205 }

def listAB : List MediaItem := [trackA, trackB]

def listA : List MediaItem := [trackA]

def eqFlat : EqSettings :=
  { preset := "Flat",
    gains := { g60 := 0, g250 := 0, g1000 := 0, g4000 := 0, g16000 := 0 } }

def baseState : AppState :=
  { currentTrack := none, isPlaying := false, currentTime := 0, duration := 0,
    shuffleOn := false, repeatMode := RepeatMode.OFF, isOnline := true,
    favorites := ∅, eqSettings := eqFlat,
    sleepTimer := { active := false, endTime := none, fadeDuration := 60000 },
    audioTime := 0, audioPaused := false, played := [] }

/-- State for the C1 counterexample: repeat ONE, current track at the end of
the two-track queue, playing. -/
def stateRepeatOne : AppState :=
  { baseState with currentTrack := some trackB, isPlaying := true,
                   repeatMode := RepeatMode.ONE }

/-- State for the C1 witness: repeat ALL, current track at the end. -/
def stateRepeatAll : AppState :=
  { baseState with currentTrack := some trackB, isPlaying := true,
                   repeatMode := RepeatMode.ALL }

/-- State for the C2 witness: shuffle on, current track at index 0. -/
def stateShuffle : AppState :=
  { baseState with currentTrack := some trackA, shuffleOn := true }

/-- State for the C4 counterexample: five-second track loaded. -/
def stateShort : AppState :=
  { baseState with currentTrack := some trackA, duration := 5 }

/-- State for C5: the single track is current, repeat OFF, playing. -/
def stateSingle : AppState :=
  { baseState with currentTrack := some trackA, isPlaying := true }

/-- State for the C7 witness: 5 seconds into the current track. -/
def stateMidTrack : AppState :=
  { baseState with currentTrack := some trackA, currentTime := 5 }

/-- State for the C9 witness: playing with a timer armed for timestamp 5000. -/
def stateArmed : AppState :=
  { baseState with
      isPlaying := true,
      sleepTimer := { active := true, endTime := some 5000, fadeDuration := 60000 } }

/-- The app's default gesture configuration (App.tsx initial state). -/
def gestureDefaults : GestureSettings :=
  { swipe := GestureAction.SEEK, pinch := GestureAction.ZOOM,
    circle := GestureAction.VOLUME }

def rectDemo : Rect := { left := 0, top := 0, width := 100, height := 100 }

/-- Touch state recorded from a one-finger gesture start: `startDist = 0`. -/
def touchStateOneFinger : TouchState :=
  { startX := 0, startY := 0, startDist := 0, startAngle := 0,
    initialVol := 1, initialTime := 0, active := true }

/-- Touch state recorded from a two-finger gesture start with the fingers one
unit apart. -/
def touchStateTwoFinger : TouchState :=
  { startX := 0, startY := 0, startDist := 1, startAngle := 0,
    initialVol := 1, initialTime := 0, active := true }

def touchOrigin : Touch := { clientX := 0, clientY := 0 }

def touchAt34 : Touch := { clientX := 3, clientY := 4 }

/-! Helper lemmas shared by the claim theorems. -/

lemma playTrack_online_spec (s : AppState) (t : MediaItem) (h : s.isOnline = true) :
    (playTrack s t).currentTrack = some t ∧ (playTrack s t).isPlaying = true ∧
    (playTrack s t).played = s.played ++ [t.id] := by
  unfold playTrack
  by_cases hv : t.type = MediaType.VIDEO
  · simp [hv]
  · simp [hv, h]

lemma findIndexById_single (a : MediaItem) : findIndexById [a] a.id = 0 := by
  unfold findIndexById
  simp [List.findIdx?_cons]

/-- C3 counterexample: a manual band edit with the out-of-range value 100 is
stored verbatim, so the resulting gains are not within [-12, 12]. -/
theorem eq_gain_unclamped_counterexample :
    ¬ gainsInRange ((handleEqChange Band.b60 100 eqFlat).gains) := by decide

/-- C3 (amended): applying any preset yields gains within [-12, 12], and a
manual single-band edit preserves the [-12, 12] invariant whenever the
edited value itself lies in [-12, 12] (which the range slider, with min -12
and max 12, guarantees for UI edits).  Arbitrary numeric values are NOT
clamped by handleEqChange. -/
theorem eq_gains_in_range_amended :
    (∀ name eq, gainsInRange ((applyPreset name eq).gains)) ∧
    (∀ eq b v, gainsInRange eq.gains → -12 ≤ v → v ≤ 12 →
      gainsInRange ((handleEqChange b v eq).gains)) := by
  constructor
  · intro name eq
    unfold applyPreset
    dsimp only
    split
    · decide
    · split
      · decide
      · split
        · decide
        · decide
  · intro eq b v hg h1 h2
    obtain ⟨⟨a1, a2⟩, ⟨b1, b2⟩, ⟨c1, c2⟩, ⟨d1, d2⟩, ⟨e1, e2⟩⟩ := hg
    cases b
    · exact ⟨⟨h1, h2⟩, ⟨b1, b2⟩, ⟨c1, c2⟩, ⟨d1, d2⟩, ⟨e1, e2⟩⟩
    · exact ⟨⟨a1, a2⟩, ⟨h1, h2⟩, ⟨c1, c2⟩, ⟨d1, d2⟩, ⟨e1, e2⟩⟩
    · exact ⟨⟨a1, a2⟩, ⟨b1, b2⟩, ⟨h1, h2⟩, ⟨d1, d2⟩, ⟨e1, e2⟩⟩
    · exact ⟨⟨a1, a2⟩, ⟨b1, b2⟩, ⟨c1, c2⟩, ⟨h1, h2⟩, ⟨e1, e2⟩⟩
    · exact ⟨⟨a1, a2⟩, ⟨b1, b2⟩, ⟨c1, c2⟩, ⟨d1, d2⟩, ⟨h1, h2⟩⟩

/-- Witness for the amended C3 theorem at a concrete in-range edit. -/
theorem eq_gains_in_range_witness :
    gainsInRange ((handleEqChange Band.b250 7 eqFlat).gains) :=
  eq_gains_in_range_amended.2 eqFlat Band.b250 7 (by decide) (by decide) (by decide)

/-- C4 counterexample: with a 5-second track, seeking to 10 stores elapsed
time 10, beyond the duration, so no clamping to [0, duration] happens. -/
theorem seek_no_clamp_counterexample :
    (handleSeek 10 stateShort).currentTime = 10 ∧
    ¬ ((handleSeek 10 stateShort).currentTime ≤ stateShort.duration) := by decide

/-- C4 (amended): seek(t) immediately (optimistically) sets the local
elapsed-time state to t itself, before the media resource confirms, but it
performs no clamping; range restriction comes only from the callers. -/
theorem seek_optimistic_amended :
    ∀ (t : ℚ) (s : AppState), (handleSeek t s).currentTime = t ∧
      (handleSeek t s).currentTrack = s.currentTrack ∧
      (handleSeek t s).duration = s.duration := by
  intro t s
  unfold handleSeek
  rcases hc : s.currentTrack with _ | cur
  · simp [hc]
  · simp only [hc]
    split <;> simp [hc]

/-- C6: applying a named preset builds the settings from scratch: the label
becomes the given name, the gains do not depend on the prior settings, and
Bass Boost yields exactly 8/5/0/0/2. -/
theorem apply_preset_replaces_gains :
    (∀ eq, applyPreset ("Bass Boost") eq =
      { preset := "Bass Boost",
        gains := { g60 := 8, g250 := 5, g1000 := 0, g4000 := 0, g16000 := 2 } }) ∧
    (∀ name eq, (applyPreset name eq).preset = name) ∧
    (∀ name eq1 eq2, (applyPreset name eq1).gains = (applyPreset name eq2).gains) := by
  refine ⟨fun eq => ?_, fun name eq => rfl, fun name eq1 eq2 => rfl⟩
  rfl

/-- C10: toggleFavorite removes a present id and inserts an absent one,
leaves every other id alone, and done twice is the identity on the set. -/
theorem toggle_favorite_involution (s : AppState) (x : String) :
    (x ∈ (toggleFavorite x s).favorites ↔ x ∉ s.favorites) ∧
    (∀ y, y ≠ x → (y ∈ (toggleFavorite x s).favorites ↔ y ∈ s.favorites)) ∧
    (toggleFavorite x (toggleFavorite x s)).favorites = s.favorites := by
  unfold toggleFavorite
  by_cases hx : x ∈ s.favorites
  · refine ⟨?_, ?_, ?_⟩
    · simp [hx]
    · intro y hy
      simp [hx, Finset.mem_erase, hy]
    · simp [hx, Finset.not_mem_erase, Finset.insert_erase hx]
  · refine ⟨?_, ?_, ?_⟩
    · simp [hx]
    · intro y hy
      simp [hx, Finset.mem_insert, hy]
    · simp [hx, Finset.mem_insert, Finset.erase_insert hx]

/-- Witness for the C10 theorem at a concrete id and state. -/
theorem toggle_favorite_involution_witness :
    ((("a" : String) ∈ (toggleFavorite ("a") baseState).favorites ↔
        ("a" : String) ∉ baseState.favorites) ∧
     (∀ y, y ≠ ("a" : String) →
        (y ∈ (toggleFavorite ("a") baseState).favorites ↔ y ∈ baseState.favorites)) ∧
     (toggleFavorite ("a") (toggleFavorite ("a") baseState)).favorites =
        baseState.favorites) :=
  toggle_favorite_involution baseState ("a")

/-- C9: an armed timer whose deadline has passed is force-paused exactly once
by the periodic check (playback and audio element paused, flag and deadline
cleared, one notification emitted); any state with the flag cleared is left
alone by further checks, and cancelling leaves a disarmed timer that never
pauses. -/
theorem sleep_timer_fires_once (s : AppState) (now d : ℤ)
    (hact : s.sleepTimer.active = true)
    (hend : s.sleepTimer.endTime = some d)
    (hd : d ≠ 0)
    (hnow : d ≤ now) :
    sleepCheckTick now s =
      ({ s with isPlaying := false, audioPaused := true,
                sleepTimer := { s.sleepTimer with active := false, endTime := none } },
       true) ∧
    (∀ (now2 : ℤ) (s2 : AppState), s2.sleepTimer.active = false →
       sleepCheckTick now2 s2 = (s2, false)) ∧
    (∀ (now0 : ℤ) (s0 : AppState),
       (setTimer now0 none s0).sleepTimer =
         { active := false, endTime := none, fadeDuration := 60000 } ∧
       (setTimer now0 none s0).isPlaying = s0.isPlaying ∧
       ∀ (now3 : ℤ), sleepCheckTick now3 (setTimer now0 none s0) =
         (setTimer now0 none s0, false)) := by
  refine ⟨?_, ?_, ?_⟩
  · have hguard : ¬ (s.sleepTimer.active = false ∨
        endTimeFalsy s.sleepTimer.endTime = true) := by
      rintro (h | h)
      · rw [hact] at h
        exact Bool.false_ne_true h.symm
      · rw [hend] at h
        unfold endTimeFalsy at h
        simp at h
        exact hd h
    unfold sleepCheckTick
    rw [if_neg hguard]
    simp only [hend]
    rw [if_pos hnow]
  · intro now2 s2 h2
    unfold sleepCheckTick
    rw [if_pos (Or.inl h2)]
  · intro now0 s0
    refine ⟨rfl, rfl, ?_⟩
    intro now3
    unfold sleepCheckTick
    rw [if_pos (Or.inl (show (setTimer now0 none s0).sleepTimer.active = false from rfl))]

/-- Witness for the C9 theorem: a timer armed for timestamp 5000, checked at
time 5000. -/
theorem sleep_timer_fires_once_witness :
    sleepCheckTick 5000 stateArmed =
      ({ stateArmed with
          isPlaying := false,
          audioPaused := true,
          sleepTimer := { stateArmed.sleepTimer with active := false, endTime := none } },
       true) ∧
    (∀ (now2 : ℤ) (s2 : AppState), s2.sleepTimer.active = false →
       sleepCheckTick now2 s2 = (s2, false)) ∧
    (∀ (now0 : ℤ) (s0 : AppState),
       (setTimer now0 none s0).sleepTimer =
         { active := false, endTime := none, fadeDuration := 60000 } ∧
       (setTimer now0 none s0).isPlaying = s0.isPlaying ∧
       ∀ (now3 : ℤ), sleepCheckTick now3 (setTimer now0 none s0) =
         (setTimer now0 none s0, false)) :=
  sleep_timer_fires_once stateArmed 5000 5000 rfl rfl (by decide) (by decide)

/-- C7: with more than 3 seconds elapsed, prev restarts the current track at
position 0 without changing the current track; otherwise it plays the track
at index (currentIndex - 1 + |L|) mod |L|. -/
theorem prev_restart_or_wrap (list : List MediaItem) (cur : MediaItem)
    (s : AppState) (i : ℕ)
    (hcur : s.currentTrack = some cur)
    (hi : findIndexById list cur.id = (i : ℤ))
    (hnil : list ≠ []) :
    (3 < s.currentTime →
       (cur.type ≠ MediaType.VIDEO → handlePrev list s = some { s with audioTime := 0 }) ∧
       (cur.type = MediaType.VIDEO → handlePrev list s = some (playTrack s cur))) ∧
    (¬ 3 < s.currentTime →
       ∃ t, jsIndex list (((i : ℤ) - 1 + (list.length : ℤ)) % (list.length : ℤ)) = some t ∧
         handlePrev list s = some (playTrack s t)) := by
  have hlen : 0 < list.length := List.length_pos.mpr hnil
  constructor
  · intro h3
    constructor
    · intro hv
      unfold handlePrev
      simp only [hcur]
      rw [if_pos h3, if_pos hv]
    · intro hv
      unfold handlePrev
      simp only [hcur]
      rw [if_pos h3, if_neg (fun h => h hv)]
  · intro h3
    have hz : (list.length : ℤ) ≠ 0 := by exact_mod_cast hlen.ne'
    have h0 : 0 ≤ ((i : ℤ) - 1 + (list.length : ℤ)) % (list.length : ℤ) :=
      Int.emod_nonneg _ hz
    have hml : ((i : ℤ) - 1 + (list.length : ℤ)) % (list.length : ℤ) < (list.length : ℤ) :=
      Int.emod_lt_of_pos _ (by exact_mod_cast hlen)
    have hmt : (((i : ℤ) - 1 + (list.length : ℤ)) % (list.length : ℤ)).toNat < list.length := by
      omega
    obtain ⟨t, ht⟩ :
        ∃ t, list.get? (((i : ℤ) - 1 + (list.length : ℤ)) % (list.length : ℤ)).toNat = some t :=
      ⟨_, List.get?_eq_get hmt⟩
    refine ⟨t, ?_, ?_⟩
    · unfold jsIndex
      rw [if_pos h0, ht]
    · unfold handlePrev
      simp only [hcur]
      rw [if_neg h3]
      simp only [hi]
      unfold jsIndex
      rw [if_pos h0, ht]
      rfl

/-- Witness for the C7 theorem: 5 seconds into an audio track, prev resets
the audio element position to 0 and keeps the current track. -/
theorem prev_restart_or_wrap_witness :
    handlePrev listAB stateMidTrack = some { stateMidTrack with audioTime := 0 } :=
  ((prev_restart_or_wrap listAB trackA stateMidTrack 0 rfl (by decide) (by decide)).1
      (by decide)).1 (by decide)

/-- C1 counterexample: with repeat ONE and an auto-triggered call at the end
of the queue, handleNext restarts the current track (isPlaying stays true
and no track is newly started), instead of stopping playback as the claim
states for every repeat mode other than ALL. -/
theorem next_at_end_repeat_one_counterexample :
    (handleNext listAB 0 true stateRepeatOne).map AppState.isPlaying = some true ∧
    (handleNext listAB 0 true stateRepeatOne).map AppState.currentTrack =
      some (some trackB) ∧
    (handleNext listAB 0 true stateRepeatOne).map AppState.played = some [] := by
  decide

/-- C1 (amended): at the end of the queue with shuffle off, excluding the
auto-triggered repeat-ONE restart (which replays the current track instead),
handleNext wraps to the first track when repeat is ALL; otherwise it stops
playback, and additionally starts the first track exactly when the call was
not auto-triggered. -/
theorem next_at_end_of_queue (list : List MediaItem) (cur : MediaItem)
    (s : AppState) (r : ℕ) (autoTrigger : Bool)
    (hcur : s.currentTrack = some cur)
    (hsh : s.shuffleOn = false)
    (hon : s.isOnline = true)
    (hnil : list ≠ [])
    (hidx : findIndexById list cur.id = (list.length : ℤ) - 1)
    (hne : ¬ (autoTrigger = true ∧ s.repeatMode = RepeatMode.ONE)) :
    ∃ t0, list.head? = some t0 ∧
      ((s.repeatMode = RepeatMode.ALL →
          handleNext list r autoTrigger s = some (playTrack s t0) ∧
          (playTrack s t0).isPlaying = true ∧
          (playTrack s t0).currentTrack = some t0) ∧
       (s.repeatMode ≠ RepeatMode.ALL → autoTrigger = true →
          handleNext list r autoTrigger s = some { s with isPlaying := false }) ∧
       (s.repeatMode ≠ RepeatMode.ALL → autoTrigger = false →
          handleNext list r autoTrigger s =
            some (playTrack { s with isPlaying := false } t0) ∧
          (playTrack { s with isPlaying := false } t0).isPlaying = true ∧
          (playTrack { s with isPlaying := false } t0).currentTrack = some t0 ∧
          (playTrack { s with isPlaying := false } t0).played = s.played ++ [t0.id])) := by
  obtain ⟨t0, rest, rfl⟩ : ∃ t0 rest, list = t0 :: rest := by
    rcases list with _ | ⟨t0, rest⟩
    · exact absurd rfl hnil
    · exact ⟨t0, rest, rfl⟩
  have hlen1 : (1 : ℤ) ≤ ((t0 :: rest).length : ℤ) := by
    have := Nat.succ_le_of_lt (Nat.succ_pos rest.length)
    exact_mod_cast this
  refine ⟨t0, rfl, ?_, ?_, ?_⟩
  · intro hall
    have hred : handleNext (t0 :: rest) r autoTrigger s = some (playTrack s t0) := by
      unfold handleNext
      simp only [hcur]
      rw [if_neg hne]
      rw [if_neg (by rw [hsh]; exact Bool.false_ne_true)]
      simp only [hidx]
      rw [if_neg (by omega)]
      rw [if_pos (by omega)]
      rw [if_pos hall]
      rfl
    obtain ⟨hp1, hp2, _⟩ := playTrack_online_spec s t0 hon
    exact ⟨hred, hp2, hp1⟩
  · intro hnall hat
    unfold handleNext
    simp only [hcur]
    rw [if_neg hne]
    rw [if_neg (by rw [hsh]; exact Bool.false_ne_true)]
    simp only [hidx]
    rw [if_neg (by omega)]
    rw [if_pos (by omega)]
    rw [if_neg hnall]
    rw [if_neg (by rw [hat]; exact fun hh => Bool.false_ne_true hh.symm)]
  · intro hnall haf
    have hred : handleNext (t0 :: rest) r autoTrigger s =
        some (playTrack { s with isPlaying := false } t0) := by
      unfold handleNext
      simp only [hcur]
      rw [if_neg hne]
      rw [if_neg (by rw [hsh]; exact Bool.false_ne_true)]
      simp only [hidx]
      rw [if_neg (by omega)]
      rw [if_pos (by omega)]
      rw [if_neg hnall]
      rw [if_pos haf]
      rfl
    obtain ⟨hp1, hp2, hp3⟩ :=
      playTrack_online_spec { s with isPlaying := false } t0 hon
    exact ⟨hred, hp2, hp1, hp3⟩

/-- Witness for the amended C1 theorem: repeat ALL at the end of a two-track
queue. -/
theorem next_at_end_of_queue_witness :
    ∃ t0, listAB.head? = some t0 ∧
      ((stateRepeatAll.repeatMode = RepeatMode.ALL →
          handleNext listAB 0 true stateRepeatAll = some (playTrack stateRepeatAll t0) ∧
          (playTrack stateRepeatAll t0).isPlaying = true ∧
          (playTrack stateRepeatAll t0).currentTrack = some t0) ∧
       (stateRepeatAll.repeatMode ≠ RepeatMode.ALL → (true : Bool) = true →
          handleNext listAB 0 true stateRepeatAll =
            some { stateRepeatAll with isPlaying := false }) ∧
       (stateRepeatAll.repeatMode ≠ RepeatMode.ALL → (true : Bool) = false →
          handleNext listAB 0 true stateRepeatAll =
            some (playTrack { stateRepeatAll with isPlaying := false } t0) ∧
          (playTrack { stateRepeatAll with isPlaying := false } t0).isPlaying = true ∧
          (playTrack { stateRepeatAll with isPlaying := false } t0).currentTrack = some t0 ∧
          (playTrack { stateRepeatAll with isPlaying := false } t0).played =
            stateRepeatAll.played ++ [t0.id])) :=
  next_at_end_of_queue listAB trackB stateRepeatAll 0 true rfl rfl rfl
    (by decide) (by decide) (by decide)

/-- C2: with shuffle on and more than one track, handleNext plays a track
whose index differs from the index of the current track (a random pick equal
to the current index is advanced by one modulo the length), so the same
index is never returned twice in a row. -/
theorem shuffle_never_repeats_index (list : List MediaItem) (cur : MediaItem)
    (s : AppState) (r : ℕ)
    (hcur : s.currentTrack = some cur)
    (hsh : s.shuffleOn = true)
    (hlen : 1 < list.length)
    (hr : r < list.length) :
    ∃ j : Fin list.length,
      handleNext list r false s = some (playTrack s (list.get j)) ∧
      ((j : ℤ) ≠ findIndexById list cur.id) := by
  by_cases hc : (r : ℤ) = findIndexById list cur.id
  · have hj0 : (r + 1) % list.length < list.length := Nat.mod_lt _ (by omega)
    have hcast : ((r : ℤ) + 1) % (list.length : ℤ) = (((r + 1) % list.length : ℕ) : ℤ) := by
      push_cast
      ring_nf
    have hne : (r + 1) % list.length ≠ r := by
      rcases Nat.lt_or_ge (r + 1) list.length with h | h
      · rw [Nat.mod_eq_of_lt h]
        omega
      · have hrl : r + 1 = list.length := by omega
        rw [hrl, Nat.mod_self]
        omega
    refine ⟨⟨(r + 1) % list.length, hj0⟩, ?_, ?_⟩
    · unfold handleNext
      simp only [hcur]
      rw [if_neg (fun h => Bool.false_ne_true h.1)]
      rw [if_pos hsh]
      rw [if_pos ⟨hlen, hc⟩]
      rw [hcast]
      unfold jsIndex
      rw [if_pos (Int.natCast_nonneg _)]
      rw [Int.toNat_natCast]
      rw [List.get?_eq_get hj0]
      rfl
    · rw [← hc]
      intro h
      exact hne (by exact_mod_cast h)
  · refine ⟨⟨r, hr⟩, ?_, hc⟩
    unfold handleNext
    simp only [hcur]
    rw [if_neg (fun h => Bool.false_ne_true h.1)]
    rw [if_pos hsh]
    rw [if_neg (fun h => hc h.2)]
    unfold jsIndex
    rw [if_pos (Int.natCast_nonneg _)]
    rw [Int.toNat_natCast]
    rw [List.get?_eq_get hr]
    rfl

/-- Witness for the C2 theorem: a two-track queue, current at index 0 and
random pick 0. -/
theorem shuffle_never_repeats_index_witness :
    ∃ j : Fin listAB.length,
      handleNext listAB 0 false stateShuffle = some (playTrack stateShuffle (listAB.get j)) ∧
      ((j : ℤ) ≠ findIndexById listAB trackA.id) :=
  shuffle_never_repeats_index listAB trackA stateShuffle 0 rfl rfl
    (by decide) (by decide)

/-- C5 counterexample: with a one-track queue, repeat OFF and shuffle off, an
auto-triggered next() stops playback and starts nothing, so the single
track is not played again (it only remains the current track). -/
theorem single_track_auto_off_counterexample :
    (handleNext listA 0 true stateSingle).map AppState.isPlaying = some false ∧
    (handleNext listA 0 true stateSingle).map AppState.currentTrack =
      some (some trackA) ∧
    (handleNext listA 0 true stateSingle).map AppState.played = some [] := by
  decide

/-- C5 (amended): with |L| = 1, next() and prev() always resolve to the same
single track without error; the track is actually restarted in every
configuration except an auto-triggered call with repeat OFF and shuffle off,
where playback stops while the current track is retained. -/
theorem single_track_queue_amended (a : MediaItem) (s : AppState) (r : ℕ)
    (autoTrigger : Bool)
    (hcur : s.currentTrack = some a)
    (hon : s.isOnline = true)
    (hr : r < 1) :
    (∃ s1, handleNext [a] r autoTrigger s = some s1 ∧ s1.currentTrack = some a ∧
       (s1.isPlaying = false ↔
         (autoTrigger = true ∧ s.repeatMode = RepeatMode.OFF ∧ s.shuffleOn = false))) ∧
    (∃ s2, handlePrev [a] s = some s2 ∧ s2.currentTrack = some a) := by
  have hr0 : r = 0 := by omega
  subst hr0
  have hfi : findIndexById [a] a.id = 0 := findIndexById_single a
  obtain ⟨hp1, hp2, hp3⟩ := playTrack_online_spec s a hon
  constructor
  · cases hA : autoTrigger
    · cases hSh : s.shuffleOn
      · by_cases hALL : s.repeatMode = RepeatMode.ALL
        · refine ⟨playTrack s a, ?_, hp1, ?_⟩
          · unfold handleNext
            simp only [hcur]
            rw [if_neg (fun h => Bool.false_ne_true h.1)]
            rw [if_neg (by rw [hSh]; exact Bool.false_ne_true)]
            simp only [hfi]
            rw [if_neg (by decide)]
            rw [if_pos (by norm_num)]
            rw [if_pos hALL]
            rfl
          · rw [hp2]
            simp
        · obtain ⟨hq1, hq2, _⟩ :=
            playTrack_online_spec { s with isPlaying := false } a hon
          refine ⟨playTrack { s with isPlaying := false } a, ?_, hq1, ?_⟩
          · unfold handleNext
            simp only [hcur]
            rw [if_neg (fun h => Bool.false_ne_true h.1)]
            rw [if_neg (by rw [hSh]; exact Bool.false_ne_true)]
            simp only [hfi]
            rw [if_neg (by decide)]
            rw [if_pos (by norm_num)]
            rw [if_neg hALL]
            simp [jsIndex]
          · rw [hq2]
            simp
      · refine ⟨playTrack s a, ?_, hp1, ?_⟩
        · unfold handleNext
          simp only [hcur]
          rw [if_neg (fun h => Bool.false_ne_true h.1)]
          rw [if_pos hSh]
          simp only [hfi]
          rw [if_neg (by simp)]
          rfl
        · rw [hp2]
          simp
    · cases hRM : s.repeatMode
      · -- repeat OFF
        cases hSh : s.shuffleOn
        · refine ⟨{ s with isPlaying := false }, ?_, hcur, ?_⟩
          · unfold handleNext
            simp only [hcur]
            rw [if_neg (by simp [hRM])]
            rw [if_neg (by rw [hSh]; exact Bool.false_ne_true)]
            simp only [hfi]
            rw [if_neg (by decide)]
            rw [if_pos (by norm_num)]
            rw [if_neg (by simp [hRM])]
            rw [if_neg (by decide)]
          · simp
        · refine ⟨playTrack s a, ?_, hp1, ?_⟩
          · unfold handleNext
            simp only [hcur]
            rw [if_neg (by simp [hRM])]
            rw [if_pos hSh]
            simp only [hfi]
            rw [if_neg (by simp)]
            rfl
          · rw [hp2]
            simp
      · -- repeat ALL
        cases hSh : s.shuffleOn
        · refine ⟨playTrack s a, ?_, hp1, ?_⟩
          · unfold handleNext
            simp only [hcur]
            rw [if_neg (by simp [hRM])]
            rw [if_neg (by rw [hSh]; exact Bool.false_ne_true)]
            simp only [hfi]
            rw [if_neg (by decide)]
            rw [if_pos (by norm_num)]
            rw [if_pos hRM]
            rfl
          · rw [hp2]
            simp
        · refine ⟨playTrack s a, ?_, hp1, ?_⟩
          · unfold handleNext
            simp only [hcur]
            rw [if_neg (by simp [hRM])]
            rw [if_pos hSh]
            simp only [hfi]
            rw [if_neg (by simp)]
            rfl
          · rw [hp2]
            simp
      · -- repeat ONE, auto-triggered: restart branch
        by_cases hv : a.type = MediaType.VIDEO
        · refine ⟨playTrack s a, ?_, hp1, ?_⟩
          · unfold handleNext
            simp only [hcur]
            rw [if_pos ⟨by trivial, hRM⟩]
            rw [if_pos hv]
          · rw [hp2]
            simp
        · refine ⟨{ s with audioTime := 0, audioPaused := false, isPlaying := true },
            ?_, hcur, ?_⟩
          · unfold handleNext
            simp only [hcur]
            rw [if_pos ⟨by trivial, hRM⟩]
            rw [if_neg hv]
          · simp
  · by_cases h3 : 3 < s.currentTime
    · by_cases hv : a.type = MediaType.VIDEO
      · refine ⟨playTrack s a, ?_, hp1⟩
        unfold handlePrev
        simp only [hcur]
        rw [if_pos h3, if_neg (fun h => h hv)]
      · refine ⟨{ s with audioTime := 0 }, ?_, hcur⟩
        unfold handlePrev
        simp only [hcur]
        rw [if_pos h3, if_pos hv]
    · refine ⟨playTrack s a, ?_, hp1⟩
      unfold handlePrev
      simp only [hcur]
      rw [if_neg h3]
      simp only [hfi]
      rfl

/-- Witness for the amended C5 theorem: a one-track queue with a manual
next()/prev(). -/
theorem single_track_queue_amended_witness :
    (∃ s1, handleNext listA 0 false stateSingle = some s1 ∧
       s1.currentTrack = some trackA ∧
       (s1.isPlaying = false ↔
         ((false : Bool) = true ∧ stateSingle.repeatMode = RepeatMode.OFF ∧
          stateSingle.shuffleOn = false))) ∧
    (∃ s2, handlePrev listA stateSingle = some s2 ∧ s2.currentTrack = some trackA) :=
  single_track_queue_amended trackA stateSingle 0 false rfl rfl (by decide)

/-- C8 counterexample: two active touch points whose gesture started with a
single finger (recorded startDist = 0) take neither the pinch branch nor any
other: the move is classified as no action at all, although the configured
PINCH action is not NONE. -/
theorem two_touch_zero_startdist_counterexample :
    (moveActionDelta gestureDefaults touchStateOneFinger touchOrigin
        (some touchAt34) rectDemo).1 = GestureAction.NONE ∧
    gestureDefaults.pinch ≠ GestureAction.NONE := by
  constructor
  · have h : ¬ (0 : ℝ) < touchStateOneFinger.startDist := by
      simp [touchStateOneFinger]
    show (if 0 < touchStateOneFinger.startDist then
        (gestureDefaults.pinch, getDistance touchOrigin touchAt34 - touchStateOneFinger.startDist)
      else (GestureAction.NONE, 0)).1 = GestureAction.NONE
    rw [if_neg h]
  · decide

/-- C8 (amended): a move with two active touch points is routed through the
configured PINCH action with delta = current distance minus the recorded
initial distance whenever that recorded distance is positive (i.e. the
gesture started with two fingers); with two points the move is never
classified as swipe or circular motion - the only other outcome is no
action, which happens exactly when the recorded initial distance is not
positive. -/
theorem two_touch_pinch_amended (g : GestureSettings) (tr : TouchState)
    (t1 t2 : Touch) (rect : Rect) :
    (0 < tr.startDist →
       moveActionDelta g tr t1 (some t2) rect =
         (g.pinch, getDistance t1 t2 - tr.startDist)) ∧
    (moveActionDelta g tr t1 (some t2) rect =
       (g.pinch, getDistance t1 t2 - tr.startDist) ∨
     moveActionDelta g tr t1 (some t2) rect = (GestureAction.NONE, 0)) := by
  constructor
  · intro h
    exact if_pos h
  · by_cases h : 0 < tr.startDist
    · left
      exact if_pos h
    · right
      exact if_neg h

/-- Witness for the amended C8 theorem: a two-finger gesture that started
with the fingers one unit apart. -/
theorem two_touch_pinch_witness :
    moveActionDelta gestureDefaults touchStateTwoFinger touchOrigin
        (some touchAt34) rectDemo =
      (GestureAction.ZOOM, getDistance touchOrigin touchAt34 - 1) :=
  (two_touch_pinch_amended gestureDefaults touchStateTwoFinger touchOrigin
      touchAt34 rectDemo).1 (by norm_num [touchStateTwoFinger])

end MTcPlayer
